import Mathlib

/-!
Shallow embedding of src/lib/styles/stylesheet-processor-worker.ts.

The module has three layers, mirrored here:
  * renderCss      : dialect dispatch by file extension, delegating to external
                     preprocessor engines (sass / less / stylus) or passing the
                     file content through unchanged;
  * optimizeCss    : assembly of the postcss plugin chain (postcss-url,
                     postcss-preset-env, cssnano) and of the process options;
  * message handler: the worker-side job protocol (postMessage, port.close,
                     Atomics.add, Atomics.notify), modelled as an event trace.

External collaborators (file system, the three preprocessor engines, the postcss
runner) are parameters of a WorkerEnv record; the definitions below record the
exact configuration the source passes to each collaborator.
-/

/-- First index at which `pat` occurs as a contiguous sublist of `s`, scanning
left to right; `some 0` for the empty pattern. This is the search JavaScript
`String.prototype.indexOf` performs with a string argument. -/
def firstMatchIdx (pat : List Char) : List Char → Option Nat
  | [] => if pat = [] then some 0 else none
  | c :: rest =>
    if pat.isPrefixOf (c :: rest) then some 0
    else (firstMatchIdx pat rest).map (· + 1)

/-- JavaScript `s.replace(pat, repl)` with a plain-string pattern: replace the
first occurrence of `pat` in `s` (the string unchanged when `pat` does not
occur), on the character-list representation. -/
def replaceFirstL (s pat repl : List Char) : List Char :=
  match firstMatchIdx pat s with
  | none => s
  | some i => s.take i ++ repl ++ s.drop (i + pat.length)

/-- JavaScript `s.replace(pat, repl)` with a plain-string pattern (no special
replacement patterns occur in the source: the replacement is the literal
".css"). -/
def replaceFirst (s pat repl : String) : String :=
  String.mk (replaceFirstL s.data pat.data repl.data)

/-- Index of the last occurrence of a dot in a character list. -/
def lastDotIdx : List Char → Option Nat
  | [] => none
  | c :: rest =>
    match lastDotIdx rest with
    | some i => some (i + 1)
    | none => if c = '.' then some 0 else none

/-- The part of a POSIX path after its last separator. -/
def basenameL (s : List Char) : List Char :=
  (s.reverse.takeWhile (fun c => c ≠ '/')).reverse

/-- Node `path.extname` on a basename: the substring from the last dot to the
end, except that a dot in first position (hidden files such as ".bashrc") and
the special name ".." yield the empty extension. -/
def extnameOfBase (b : List Char) : List Char :=
  if b = ['.', '.'] then []
  else
    match lastDotIdx b with
    | none => []
    | some 0 => []
    | some i => b.drop i

/-- Node `path.extname` (POSIX, for paths without trailing separators, the only
paths the worker receives): extension of the basename, dot included; "" when
the basename has no extension. -/
def extname (p : String) : String :=
  String.mk (extnameOfBase (basenameL p.data))

/-- URL-rewriting modes. The enum is declared in stylesheet-processor.ts, a
sibling module outside this file; its member set is the closed enum the spec
gives (none, inline, rebase-relative). Only the member `none` is inspected by
the worker, so the claims below do not depend on the exact remaining members. -/
inductive CssUrl where
  | none
  | inline
  | rebaseRelative
deriving DecidableEq, Repr

/-- The job description carried by the message from the host
(stylesheet-processor.ts's WorkerOptions). `cssUrl` is an optional field of the
message, hence `Option CssUrl` with `Option.none` for an absent field. -/
structure WorkerOptions where
  filePath : String
  basePath : String
  styleIncludePaths : List String
  browserslistData : List String
  cssUrl : Option CssUrl
deriving DecidableEq, Repr

/-- The result the worker posts back (stylesheet-processor.ts's WorkerResult):
final CSS text plus stringified warnings in order of production. -/
structure WorkerResult where
  css : String
  warnings : List String
deriving DecidableEq, Repr

/-- Which sass implementation the dynamic require resolved:
require("node-sass") when available, else import("sass"). -/
inductive SassImpl where
  | nodeSass
  | dartSass
deriving DecidableEq, Repr

/-- The argument record of `sassCompiler.renderSync` as the source builds it:
file, data (the file content already read), indentedSyntax, the tilde importer
(node-sass-tilde-importer), includePaths; plus which implementation the
require/import probe resolved. -/
structure SassCall where
  file : String
  data : String
  indented : Bool
  tildeImporter : Bool
  includePaths : List String
  impl : SassImpl
deriving DecidableEq, Repr

/-- The argument record of `less.render` as the source builds it. -/
structure LessCall where
  source : String
  filename : String
  javascriptEnabled : Bool
  paths : List String
deriving DecidableEq, Repr

/-- The stylus invocation as the source builds it: the `paths` setting, the
`filename` setting, the `resolve url` flag, and the options argument handed to
`stylus.resolver` (the source passes `undefined`, modelled as `Option.none`). -/
structure StylusCall where
  source : String
  paths : List String
  filename : String
  resolveUrl : Bool
  resolverOptions : Option Unit
deriving DecidableEq, Repr

/-- The external rendering call renderCss's switch selects: one of the three
preprocessor engines with its full configuration, or passthrough of the file
content (the `.css` / default branch). -/
inductive RenderPlan where
  | sass (call : SassCall)
  | less (call : LessCall)
  | stylus (call : StylusCall)
  | passthrough (content : String)
deriving DecidableEq, Repr

/-- Errors of the render phase: the readFile rejection, or a rejection of the
selected preprocessor engine. -/
inductive RenderError where
  | readError (e : String)
  | engineError (e : String)
deriving DecidableEq, Repr

/-- Diagnostics the postcss run can produce (result.warnings(), stringified by
processCss in order of production). -/
structure PostcssOutcome where
  css : String
  warnings : List String
deriving DecidableEq, Repr

/-- Configuration of the postcss-url plugin exactly as the source passes it:
the object literal with the single field `url`, holding the job's cssUrl value
(possibly absent). -/
structure PostcssUrlConfig where
  url : Option CssUrl
deriving DecidableEq, Repr

/-- Configuration of postcss-preset-env exactly as the source passes it:
browsers, autoprefixer, stage. -/
structure PresetEnvConfig where
  browsers : List String
  autoprefixer : Bool
  stage : Nat
deriving DecidableEq, Repr

/-- Configuration of cssnano exactly as the source passes it: the tuple preset
name plus the two overrides svgo and calc. -/
structure CssnanoConfig where
  presetName : String
  svgo : Bool
  «calc» : Bool
deriving DecidableEq, Repr

/-- One element of the postCssPlugins array. -/
inductive PostcssPlugin where
  | url (config : PostcssUrlConfig)
  | presetEnv (config : PresetEnvConfig)
  | cssnano (config : CssnanoConfig)
deriving DecidableEq, Repr

/-- The options object of `postcss(...).process(css, { from, to })`. -/
structure ProcessOptions where
  fromPath : String
  toPath : String
deriving DecidableEq, Repr

/-- The fully assembled postcss invocation optimizeCss returns (the LazyResult
before it is awaited): plugin array, input CSS, process options. -/
structure PostcssProcessCall where
  plugins : List PostcssPlugin
  css : String
  opts : ProcessOptions
deriving DecidableEq, Repr

/-- External collaborators of the worker, injected as functions: the file
reader, the probe for the optional node-sass implementation, the three
preprocessor engines, and the postcss runner that awaits a LazyResult. -/
structure WorkerEnv where
  readFile : String → Except String String
  nodeSassAvailable : Bool
  sassRender : SassCall → Except String String
  lessRender : LessCall → Except String String
  stylusRender : StylusCall → Except String String
  postcssRun : PostcssProcessCall → Except String PostcssOutcome

/-- The dispatch of renderCss (source lines 24-86): compute the extension, read
the file, then select the engine invocation by the switch on the extension.
Returns the external call the source would make, with its full configuration;
a readFile rejection aborts before the switch. -/
def renderDispatch (env : WorkerEnv) (filePath basePath : String)
    (styleIncludePaths : List String) : Except RenderError RenderPlan :=
  let ext := extname filePath
  match env.readFile filePath with
  | .error e => .error (.readError e)
  | .ok content =>
    if ext = ".sass" ∨ ext = ".scss" then
      .ok (.sass
        { file := filePath
          data := content
          indented := ext == ".sass"
          tildeImporter := true
          includePaths := styleIncludePaths
          impl := if env.nodeSassAvailable then .nodeSass else .dartSass })
    else if ext = ".less" then
      .ok (.less
        { source := content
          filename := filePath
          javascriptEnabled := true
          paths := styleIncludePaths })
    else if ext = ".styl" ∨ ext = ".stylus" then
      .ok (.stylus
        { source := content
          paths := [basePath, "."] ++ styleIncludePaths ++ ["node_modules"]
          filename := filePath
          resolveUrl := true
          resolverOptions := Option.none })
    else
      .ok (.passthrough content)

/-- Execution of the selected engine call through the environment; passthrough
returns the content unchanged. -/
def runPlan (env : WorkerEnv) : RenderPlan → Except String String
  | .sass call => env.sassRender call
  | .less call => env.lessRender call
  | .stylus call => env.stylusRender call
  | .passthrough content => .ok content

/-- renderCss (source lines 24-86): dispatch then engine execution; an engine
rejection surfaces as a RenderError. -/
def renderCss (env : WorkerEnv) (filePath basePath : String)
    (styleIncludePaths : List String) : Except RenderError String :=
  match renderDispatch env filePath basePath styleIncludePaths with
  | .error e => .error e
  | .ok plan =>
    match runPlan env plan with
    | .error e => .error (.engineError e)
    | .ok css => .ok css

/-- optimizeCss (source lines 88-118): build postCssPlugins by pushing
postcss-url only when cssUrl differs from CssUrl.none, then always
postcss-preset-env (browsers, autoprefixer true, stage 3) and cssnano (preset
"default" with svgo and calc forced off), and return the postcss process call
with from = filePath and to = filePath.replace(path.extname(filePath), ".css").
`cssUrl` is `Option CssUrl`: an absent message field (undefined) also satisfies
the strict inequality against CssUrl.none. -/
def optimizeCss (filePath css : String) (browsers : List String)
    (cssUrl : Option CssUrl) : PostcssProcessCall :=
  let postCssPlugins : List PostcssPlugin :=
    if cssUrl ≠ some CssUrl.none then [.url { url := cssUrl }] else []
  { plugins := postCssPlugins ++
      [.presetEnv { browsers := browsers, autoprefixer := true, stage := 3 },
       .cssnano { presetName := "default", svgo := false, «calc» := false }]
    css := css
    opts :=
      { fromPath := filePath
        toPath := replaceFirst filePath (extname filePath) ".css" } }

/-- Failures of processCss: a render rejection or a postcss rejection. -/
inductive ProcessError where
  | render (e : RenderError)
  | optimize (e : String)
deriving DecidableEq, Repr

/-- processCss (source lines 11-22): render, then await the optimize
LazyResult, then package css and stringified warnings. -/
def processCss (env : WorkerEnv) (o : WorkerOptions) :
    Except ProcessError WorkerResult :=
  match renderCss env o.filePath o.basePath o.styleIncludePaths with
  | .error e => .error (.render e)
  | .ok renderedCss =>
    match env.postcssRun
        (optimizeCss o.filePath renderedCss o.browserslistData o.cssUrl) with
    | .error e => .error (.optimize e)
    | .ok result => .ok { css := result.css, warnings := result.warnings }

/-- Observable actions of the message handler against the host-owned resources:
posting on the reply port, closing the port, the atomic increment of the shared
signal cell, the wake notification, and rejection of the handler's own promise
(nothing in the handler catches it). -/
inductive WorkerEvent where
  | postMessage (result : WorkerResult)
  | portClose
  | atomicsAdd (idx delta : Nat)
  | atomicsNotify (idx : Nat)
  | handlerRejected (e : ProcessError)
deriving DecidableEq, Repr

/-- The body of parentPort.on("message", ...) (source lines 120-128) as the
event trace it emits, as a function of the awaited processCss outcome: on
fulfilment, postMessage, then port.close(), then Atomics.add(signal, 0, 1),
then Atomics.notify(signal, 0); on rejection the async function aborts at the
await, so none of the four statements runs and the handler promise rejects. -/
def messageHandler (outcome : Except ProcessError WorkerResult) :
    List WorkerEvent :=
  match outcome with
  | .error e => [.handlerRejected e]
  | .ok result =>
    [.postMessage result, .portClose, .atomicsAdd 0 1, .atomicsNotify 0]

/-- One full job: the handler applied to the processCss outcome of the job. -/
def handleJobMessage (env : WorkerEnv) (o : WorkerOptions) : List WorkerEvent :=
  messageHandler (processCss env o)

/-- Recognizer for postMessage events. -/
def isPostMessage : WorkerEvent → Bool
  | .postMessage _ => true
  | _ => false

/-- Recognizer for port-close events. -/
def isPortClose : WorkerEvent → Bool
  | .portClose => true
  | _ => false

/-- Recognizer for Atomics.add events (the completion-signal increment). -/
def isAtomicsAdd : WorkerEvent → Bool
  | .atomicsAdd _ _ => true
  | _ => false

/-- Recognizer for Atomics.notify events (the wake notification). -/
def isAtomicsNotify : WorkerEvent → Bool
  | .atomicsNotify _ => true
  | _ => false

/-- Recognizer for url-plugin entries of the plugin array. -/
def isUrlPlugin : PostcssPlugin → Bool
  | .url _ => true
  | _ => false

/-- Recognizer for preset-env entries of the plugin array. -/
def isPresetEnvPlugin : PostcssPlugin → Bool
  | .presetEnv _ => true
  | _ => false

/-- Recognizer for cssnano entries of the plugin array. -/
def isCssnanoPlugin : PostcssPlugin → Bool
  | .cssnano _ => true
  | _ => false

/-- A concrete environment whose collaborators all succeed: three stylesheet
files exist, node-sass is not installed (the probe falls back to sass), every
engine and the postcss run fulfil. -/
def demoEnv : WorkerEnv where
  readFile := fun p =>
    if p = "/proj/src/app.scss" then .ok "a color: red"
    else if p = "/proj/src/app.styl" then .ok "a color red"
    else if p = "/proj/src/app.css" then .ok "a color: red"
    else .error "ENOENT: no such file or directory"
  nodeSassAvailable := false
  sassRender := fun _ => .ok "a color: red"
  lessRender := fun _ => .ok "a color: red"
  stylusRender := fun _ => .ok "a color: red"
  postcssRun := fun call => .ok { css := call.css, warnings := [] }

/-- A concrete environment in which the sass engine rejects, as it does for a
source importing a nonexistent partial. -/
def failRenderEnv : WorkerEnv where
  readFile := fun _ => .ok "@import missing;"
  nodeSassAvailable := false
  sassRender := fun _ => .error "cannot find stylesheet to import"
  lessRender := fun _ => .ok ""
  stylusRender := fun _ => .ok ""
  postcssRun := fun call => .ok { css := call.css, warnings := [] }

/-- A concrete environment in which rendering succeeds but the postcss run
rejects. -/
def failOptimizeEnv : WorkerEnv where
  readFile := fun _ => .ok "a color: red"
  nodeSassAvailable := false
  sassRender := fun _ => .ok "a color: red"
  lessRender := fun _ => .ok "a color: red"
  stylusRender := fun _ => .ok "a color: red"
  postcssRun := fun _ => .error "postcss transform failure"

/-- A concrete job description for a .scss stylesheet. -/
def demoScssJob : WorkerOptions where
  filePath := "/proj/src/app.scss"
  basePath := "/proj/src"
  styleIncludePaths := []
  browserslistData := ["last 2 Chrome versions"]
  cssUrl := some CssUrl.inline

/-- The spec-side path transformation, for comparison with the source: the
original path with its extension (path.extname) replaced by ".css" at the end. -/
def specReplaceExtension (p : String) : String :=
  String.mk (p.data.take (p.data.length - (extname p).data.length) ++
    (".css").data)

/-- A first match of `pat` at index `i` lies entirely inside `s`. -/
theorem firstMatchIdx_add_length_le (pat : List Char) :
    ∀ (s : List Char) (i : Nat), firstMatchIdx pat s = some i →
      i + pat.length ≤ s.length := by
  intro s
  induction s with
  | nil =>
    intro i h
    unfold firstMatchIdx at h
    split at h
    · rename_i hpat
      cases h
      simp [hpat]
    · cases h
  | cons c rest ih =>
    intro i h
    unfold firstMatchIdx at h
    split at h
    · rename_i hpre
      cases h
      have hx := List.isPrefixOf_iff_prefix.mp hpre
      simpa using hx.length_le
    · cases hm : firstMatchIdx pat rest with
      | none => rw [hm] at h; cases h
      | some j =>
        rw [hm] at h
        cases h
        have := ih j hm
        simp only [List.length_cons]
        omega

/-- When the first occurrence of `pat` in `s` is exactly the final segment of
`s`, the JavaScript first-occurrence replacement coincides with chopping `pat`
off the end and appending the replacement. -/
theorem replaceFirstL_suffix (s pat repl : List Char)
    (h : firstMatchIdx pat s = some (s.length - pat.length)) :
    replaceFirstL s pat repl = s.take (s.length - pat.length) ++ repl := by
  have hle := firstMatchIdx_add_length_le pat s _ h
  have hple : pat.length ≤ s.length := by omega
  unfold replaceFirstL
  rw [h]
  simp only []
  rw [Nat.sub_add_cancel hple, List.drop_length, List.append_nil]

/-- C5: for every file path with extension .sass or .scss, renderCss selects
the Sass strategy: indented syntax exactly when the extension is .sass (and
standard syntax for .scss), includePaths handed to the import resolver, the
tilde importer enabled, and node-sass attempted first with sass as the
fallback when it is unavailable. -/
theorem renderDispatch_sass (env : WorkerEnv) (fp basePath content : String)
    (incl : List String)
    (hext : extname fp = ".sass" ∨ extname fp = ".scss")
    (hread : env.readFile fp = Except.ok content) :
    ∃ call, renderDispatch env fp basePath incl =
        Except.ok (RenderPlan.sass call) ∧
      call.file = fp ∧ call.data = content ∧
      (call.indented = true ↔ extname fp = ".sass") ∧
      call.tildeImporter = true ∧
      call.includePaths = incl ∧
      call.impl = (if env.nodeSassAvailable then SassImpl.nodeSass
        else SassImpl.dartSass) := by
  unfold renderDispatch
  rw [hread]
  simp only [if_pos hext]
  exact ⟨_, rfl, rfl, rfl, by simp, rfl, rfl, rfl⟩

/-- Witness for C5 at a concrete .scss job in the concrete environment. -/
theorem renderDispatch_sass_witness :
    ∃ call, renderDispatch demoEnv "/proj/src/app.scss" "/proj/src" [] =
        Except.ok (RenderPlan.sass call) ∧
      call.file = "/proj/src/app.scss" ∧ call.data = "a color: red" ∧
      (call.indented = true ↔ extname "/proj/src/app.scss" = ".sass") ∧
      call.tildeImporter = true ∧
      call.includePaths = [] ∧
      call.impl = (if demoEnv.nodeSassAvailable then SassImpl.nodeSass
        else SassImpl.dartSass) :=
  renderDispatch_sass demoEnv "/proj/src/app.scss" "/proj/src" "a color: red"
    [] (Or.inr (by decide)) rfl

/-- C6: for every file path with extension .styl or .stylus, renderCss invokes
stylus with the search path list [basePath, ".", ...includePaths,
"node_modules"] in that order, url resolution enabled (resolve url = true, the
--resolve-url flag), and the url resolver built with undefined options (the
engine default). -/
theorem renderDispatch_stylus (env : WorkerEnv) (fp basePath content : String)
    (incl : List String)
    (hext : extname fp = ".styl" ∨ extname fp = ".stylus")
    (hread : env.readFile fp = Except.ok content) :
    ∃ call, renderDispatch env fp basePath incl =
        Except.ok (RenderPlan.stylus call) ∧
      call.paths = [basePath, "."] ++ incl ++ ["node_modules"] ∧
      call.filename = fp ∧ call.source = content ∧
      call.resolveUrl = true ∧
      call.resolverOptions = Option.none := by
  have h1 : extname fp ≠ ".sass" := by
    rcases hext with h | h <;> rw [h] <;> decide
  have h2 : extname fp ≠ ".scss" := by
    rcases hext with h | h <;> rw [h] <;> decide
  have h3 : extname fp ≠ ".less" := by
    rcases hext with h | h <;> rw [h] <;> decide
  have hns : ¬(extname fp = ".sass" ∨ extname fp = ".scss") := by
    simp [h1, h2]
  unfold renderDispatch
  rw [hread]
  simp only [if_neg hns, if_neg h3, if_pos hext]
  exact ⟨_, rfl, rfl, rfl, rfl, rfl, rfl⟩

/-- Witness for C6 at a concrete .styl job in the concrete environment. -/
theorem renderDispatch_stylus_witness :
    ∃ call, renderDispatch demoEnv "/proj/src/app.styl" "/proj/src" ["/lib"] =
        Except.ok (RenderPlan.stylus call) ∧
      call.paths = ["/proj/src", "."] ++ ["/lib"] ++ ["node_modules"] ∧
      call.filename = "/proj/src/app.styl" ∧ call.source = "a color red" ∧
      call.resolveUrl = true ∧
      call.resolverOptions = Option.none :=
  renderDispatch_stylus demoEnv "/proj/src/app.styl" "/proj/src" "a color red"
    ["/lib"] (Or.inl (by decide)) rfl

/-- C7: for every file path whose extension is .css or is not one of .sass,
.scss, .less, .styl, .stylus, renderCss succeeds and returns the file content
unchanged (passthrough, byte for byte). -/
theorem renderCss_passthrough (env : WorkerEnv) (fp basePath content : String)
    (incl : List String)
    (hext : extname fp = ".css" ∨
      extname fp ∉ ([".sass", ".scss", ".less", ".styl", ".stylus"] :
        List String))
    (hread : env.readFile fp = Except.ok content) :
    renderCss env fp basePath incl = Except.ok content := by
  have hne : extname fp ≠ ".sass" ∧ extname fp ≠ ".scss" ∧
      extname fp ≠ ".less" ∧ extname fp ≠ ".styl" ∧
      extname fp ≠ ".stylus" := by
    rcases hext with h | h
    · rw [h]; refine ⟨by decide, by decide, by decide, by decide, by decide⟩
    · simp only [List.mem_cons, List.mem_singleton, not_or] at h
      simpa using h
  obtain ⟨h1, h2, h3, h4, h5⟩ := hne
  have hns : ¬(extname fp = ".sass" ∨ extname fp = ".scss") := by
    simp [h1, h2]
  have hnst : ¬(extname fp = ".styl" ∨ extname fp = ".stylus") := by
    simp [h4, h5]
  have hd : renderDispatch env fp basePath incl =
      Except.ok (RenderPlan.passthrough content) := by
    unfold renderDispatch
    rw [hread]
    simp only [if_neg hns, if_neg h3, if_neg hnst]
  unfold renderCss
  rw [hd]
  rfl

/-- Witness for C7 at a concrete .css job in the concrete environment. -/
theorem renderCss_passthrough_witness :
    renderCss demoEnv "/proj/src/app.css" "/proj/src" [] =
      Except.ok "a color: red" :=
  renderCss_passthrough demoEnv "/proj/src/app.css" "/proj/src" "a color: red"
    [] (Or.inl (by decide)) rfl

/-- C10: renderCss reads the file before the switch dispatches on the
extension, so a failed read fails the render for every dialect, the
.css/unrecognized passthrough branch included. -/
theorem renderCss_readFail (env : WorkerEnv) (fp basePath : String)
    (incl : List String) (e : String)
    (hread : env.readFile fp = Except.error e) :
    renderCss env fp basePath incl =
      Except.error (RenderError.readError e) := by
  unfold renderCss renderDispatch
  rw [hread]

/-- Witness for C10 at a concrete missing .css path (the passthrough branch
never runs without a readable file). -/
theorem renderCss_readFail_witness :
    renderCss demoEnv "/proj/src/missing.css" "/proj/src" [] =
      Except.error (RenderError.readError
        "ENOENT: no such file or directory") :=
  renderCss_readFail demoEnv "/proj/src/missing.css" "/proj/src" []
    "ENOENT: no such file or directory" rfl

/-- The role of a plugin in the chain, for stating order and inclusion without
restating each configuration. -/
inductive PluginKind where
  | urlRewrite
  | presetCompat
  | minifier
deriving DecidableEq, Repr

/-- The role of each concrete plugin. -/
def pluginKind : PostcssPlugin → PluginKind
  | .url _ => .urlRewrite
  | .presetEnv _ => .presetCompat
  | .cssnano _ => .minifier

/-- C4: for every urlMode and input, the plugin chain is, in order, the
url-rewrite plugin (present exactly when cssUrl differs from CssUrl.none),
then preset-env, then cssnano; every preset-env entry carries autoprefixer
true at stage 3 with the job's browsers, and every cssnano entry carries the
"default" preset with svgo and calc forced off. -/
theorem optimizeCss_pluginChain (fp css : String) (browsers : List String)
    (u : Option CssUrl) :
    ((optimizeCss fp css browsers u).plugins.map pluginKind =
      if u = some CssUrl.none then [PluginKind.presetCompat, PluginKind.minifier]
      else [PluginKind.urlRewrite, PluginKind.presetCompat,
        PluginKind.minifier]) ∧
    (∀ c, PostcssPlugin.presetEnv c ∈ (optimizeCss fp css browsers u).plugins →
      c.autoprefixer = true ∧ c.stage = 3 ∧ c.browsers = browsers) ∧
    (∀ c, PostcssPlugin.cssnano c ∈ (optimizeCss fp css browsers u).plugins →
      c.presetName = "default" ∧ c.svgo = false ∧ c.«calc» = false) := by
  by_cases hu : u = some CssUrl.none
  · subst hu
    refine ⟨by simp [optimizeCss, pluginKind], ?_, ?_⟩
    · intro c hc
      simp [optimizeCss] at hc
      subst hc
      exact ⟨rfl, rfl, rfl⟩
    · intro c hc
      simp [optimizeCss] at hc
      subst hc
      exact ⟨rfl, rfl, rfl⟩
  · refine ⟨by simp [optimizeCss, hu, pluginKind], ?_, ?_⟩
    · intro c hc
      simp [optimizeCss, hu] at hc
      subst hc
      exact ⟨rfl, rfl, rfl⟩
    · intro c hc
      simp [optimizeCss, hu] at hc
      subst hc
      exact ⟨rfl, rfl, rfl⟩

/-- Witness for C4 at a concrete inline-mode invocation. -/
theorem optimizeCss_pluginChain_witness :
    (optimizeCss "/proj/src/app.scss" "a color: red" ["chrome 100"]
        (some CssUrl.inline)).plugins.map pluginKind =
      [PluginKind.urlRewrite, PluginKind.presetCompat, PluginKind.minifier] := by
  have h := optimizeCss_pluginChain "/proj/src/app.scss" "a color: red"
    ["chrome 100"] (some CssUrl.inline)
  simpa using h.1

/-- C9: with an absent cssUrl field (undefined), the url-rewrite plugin is
still included, configured with the undefined url mode; the plugin is omitted
exactly when cssUrl is literally CssUrl.none. -/
theorem optimizeCss_urlPlugin_undefined (fp css : String)
    (browsers : List String) :
    ((optimizeCss fp css browsers Option.none).plugins.map pluginKind =
      [PluginKind.urlRewrite, PluginKind.presetCompat, PluginKind.minifier]) ∧
    (∀ c, PostcssPlugin.url c ∈ (optimizeCss fp css browsers Option.none).plugins →
      c.url = Option.none) ∧
    (∀ u : Option CssUrl,
      (∀ c, PostcssPlugin.url c ∉ (optimizeCss fp css browsers u).plugins) ↔
        u = some CssUrl.none) := by
  refine ⟨by simp [optimizeCss, pluginKind], ?_, ?_⟩
  · intro c hc
    simp [optimizeCss] at hc
    subst hc
    rfl
  · intro u
    constructor
    · intro habs
      by_contra hu
      exact habs { url := u } (by simp [optimizeCss, hu])
    · intro hu
      subst hu
      intro c hc
      simp [optimizeCss] at hc

/-- Witness for C9 at a concrete invocation with the field absent. -/
theorem optimizeCss_urlPlugin_undefined_witness :
    (optimizeCss "/proj/src/app.scss" "a color: red" ["chrome 100"]
        Option.none).plugins.map pluginKind =
      [PluginKind.urlRewrite, PluginKind.presetCompat, PluginKind.minifier] :=
  (optimizeCss_urlPlugin_undefined "/proj/src/app.scss" "a color: red"
    ["chrome 100"]).1

/-- C8 is false as stated: for the path "/x.scss/y.scss" the source computes
the virtual to path with a first-occurrence string replacement, yielding
"/x.css/y.scss" instead of the extension-replaced "/x.scss/y.css". -/
theorem optimizeCss_toPath_counterexample :
    (optimizeCss "/x.scss/y.scss" "a color: red" [] Option.none).opts.toPath
        = "/x.css/y.scss" ∧
    specReplaceExtension "/x.scss/y.scss" = "/x.scss/y.css" ∧
    ¬ ((optimizeCss "/x.scss/y.scss" "a color: red" []
          Option.none).opts.fromPath = "/x.scss/y.scss" ∧
      (optimizeCss "/x.scss/y.scss" "a color: red" []
          Option.none).opts.toPath =
        specReplaceExtension "/x.scss/y.scss") := by
  decide

/-- C8 amended: the from path is the original path, and the to path is the
original path with the first occurrence of its extension substring replaced by
".css"; whenever that first occurrence is the final extension itself (the
extension substring appears nowhere earlier in the path), this coincides with
replacing the extension by ".css". -/
theorem optimizeCss_paths_amended (fp css : String) (browsers : List String)
    (u : Option CssUrl)
    (h : firstMatchIdx (extname fp).data fp.data =
      some (fp.data.length - (extname fp).data.length)) :
    (optimizeCss fp css browsers u).opts.fromPath = fp ∧
    (optimizeCss fp css browsers u).opts.toPath =
      replaceFirst fp (extname fp) ".css" ∧
    (optimizeCss fp css browsers u).opts.toPath = specReplaceExtension fp := by
  refine ⟨rfl, rfl, ?_⟩
  show replaceFirst fp (extname fp) ".css" = specReplaceExtension fp
  unfold replaceFirst specReplaceExtension
  exact congrArg String.mk (replaceFirstL_suffix _ _ _ h)

/-- Witness for C8 amended at a concrete path whose extension occurs only at
the end. -/
theorem optimizeCss_paths_amended_witness :
    (optimizeCss "/proj/src/app.scss" "a color: red" ["chrome 100"]
        (some CssUrl.inline)).opts.fromPath = "/proj/src/app.scss" ∧
    (optimizeCss "/proj/src/app.scss" "a color: red" ["chrome 100"]
        (some CssUrl.inline)).opts.toPath =
      replaceFirst "/proj/src/app.scss" (extname "/proj/src/app.scss")
        ".css" ∧
    (optimizeCss "/proj/src/app.scss" "a color: red" ["chrome 100"]
        (some CssUrl.inline)).opts.toPath =
      specReplaceExtension "/proj/src/app.scss" :=
  optimizeCss_paths_amended "/proj/src/app.scss" "a color: red"
    ["chrome 100"] (some CssUrl.inline) (by decide)

/-- The ordering C3 asserts of a trace: the port close occurs only after the
signal increment (every close event strictly follows every add event). -/
def closedOnlyAfterSignaled (tr : List WorkerEvent) : Prop :=
  ∀ i j : Fin tr.length,
    isPortClose (tr.get i) = true → isAtomicsAdd (tr.get j) = true →
      (j : Nat) < (i : Nat)

/-- C3 is false as stated: in the trace of a concrete successful job the port
close (index 1) precedes the signal increment (index 2); the source closes the
reply channel before mutating the completion signal. -/
theorem handleJobMessage_close_precedes_signal :
    ¬ closedOnlyAfterSignaled (handleJobMessage demoEnv demoScssJob) := by
  unfold closedOnlyAfterSignaled
  decide

/-- C3 amended: for every successful job the endpoint's steps occur in the
order Posting, then Closed, then Signaled: the result is posted first, the
reply channel is closed next, and only then is the completion signal
incremented and the waiter notified; each step occurs exactly once. -/
theorem messageHandler_success_order (r : WorkerResult) :
    (messageHandler (Except.ok r)).findIdx? isPostMessage = some 0 ∧
    (messageHandler (Except.ok r)).findIdx? isPortClose = some 1 ∧
    (messageHandler (Except.ok r)).findIdx? isAtomicsAdd = some 2 ∧
    (messageHandler (Except.ok r)).findIdx? isAtomicsNotify = some 3 ∧
    (messageHandler (Except.ok r)).countP isPostMessage = 1 ∧
    (messageHandler (Except.ok r)).countP isPortClose = 1 ∧
    (messageHandler (Except.ok r)).countP isAtomicsAdd = 1 ∧
    (messageHandler (Except.ok r)).countP isAtomicsNotify = 1 :=
  ⟨rfl, rfl, rfl, rfl, rfl, rfl, rfl, rfl⟩

/-- C1 fails on the code: for a job whose render rejects (here a .scss source
whose import the sass engine cannot resolve), the handler body aborts at the
await, so the completion counter receives zero increments (not exactly one)
and zero wake notifications are issued. -/
theorem handleJobMessage_renderFail_noSignal :
    (handleJobMessage failRenderEnv demoScssJob).countP isAtomicsAdd = 0 ∧
    (handleJobMessage failRenderEnv demoScssJob).countP isAtomicsNotify = 0 ∧
    handleJobMessage failRenderEnv demoScssJob =
      [WorkerEvent.handlerRejected (ProcessError.render
        (RenderError.engineError "cannot find stylesheet to import"))] := by
  decide

/-- C2 fails on the code: on both failure paths (render rejection and postcss
rejection) nothing is posted on the reply port and the completion cell is
never incremented, so the host's blocking wait never unblocks. -/
theorem handleJobMessage_fail_hostBlocked :
    (handleJobMessage failRenderEnv demoScssJob).countP isPostMessage = 0 ∧
    (handleJobMessage failOptimizeEnv demoScssJob).countP isPostMessage = 0 ∧
    (handleJobMessage failOptimizeEnv demoScssJob).countP isAtomicsAdd = 0 ∧
    (handleJobMessage failOptimizeEnv demoScssJob).countP isAtomicsNotify
      = 0 ∧
    handleJobMessage failOptimizeEnv demoScssJob =
      [WorkerEvent.handlerRejected (ProcessError.optimize
        "postcss transform failure")] := by
  decide
